import Mathlib

/-!
Verification of the activity-heatmap core of the dashboard repository.

The core logic lives in `src/client/src/components/ActivityHeatmap.vue`
(year navigation `changeYear`, synthetic data `generateYearData`, grid
construction `weeks`, intensity classification `getIntensityClass`,
pluralization `getCommitsWord`) and in
`src/client/src/components/TeamProductivityStats.vue` (a second
`changeYear`).

Calendar dates are embedded as proleptic-Gregorian day numbers
(rata die: day 1 = 0001-01-01, a Monday), so JavaScript's
`Date.prototype.getDay()` (0 = Sunday .. 6 = Saturday) is the day
number modulo 7.  An `ActivityMap` (the JS object keyed by
`yyyy-mm-dd` strings) is embedded as a function from day numbers to
optional counts; the string key format is a bijection on valid dates,
so nothing is lost.  `Math.random()` draws are embedded as an explicit
stream of rationals, consumed left to right exactly as the JS
expression evaluates.
-/

/-- Leap-year test of the proleptic Gregorian calendar. -/
def isLeap (y : Nat) : Bool :=
  (y % 4 == 0 && y % 100 != 0) || y % 400 == 0

/-- Number of days in the years 1..y-1, proleptic Gregorian. -/
def daysBeforeYear (y : Nat) : Nat :=
  365 * (y - 1) + (y - 1) / 4 - (y - 1) / 100 + (y - 1) / 400

/-- Rata-die day number of January 1 of year `y`
(the JS `new Date(year, 0, 1)`). -/
def jan1RD (y : Nat) : Nat :=
  daysBeforeYear y + 1

/-- Rata-die day number of December 31 of year `y`
(the JS `new Date(year, 11, 31)`). -/
def dec31RD (y : Nat) : Nat :=
  daysBeforeYear (y + 1)

/-- Days in the months strictly before month `m` (1-based) of a year
with leap flag `leap`. -/
def daysBeforeMonth (leap : Bool) (m : Nat) : Nat :=
  match m with
  | 0 => 0
  | 1 => 0
  | 2 => 31
  | 3 => 59 + (if leap then 1 else 0)
  | 4 => 90 + (if leap then 1 else 0)
  | 5 => 120 + (if leap then 1 else 0)
  | 6 => 151 + (if leap then 1 else 0)
  | 7 => 181 + (if leap then 1 else 0)
  | 8 => 212 + (if leap then 1 else 0)
  | 9 => 243 + (if leap then 1 else 0)
  | 10 => 273 + (if leap then 1 else 0)
  | 11 => 304 + (if leap then 1 else 0)
  | _ => 334 + (if leap then 1 else 0)

/-- Rata-die day number of the calendar date `(y, m, d)`. -/
def toRD (y m d : Nat) : Nat :=
  daysBeforeYear y + daysBeforeMonth (isLeap y) m + d

/-- The JS `Date.prototype.getDay()` of a day number:
0 = Sunday, 1 = Monday, ..., 6 = Saturday. -/
def jsGetDay (rd : Nat) : Nat :=
  rd % 7

/-- An activity map: day number to optional commit count
(`undefined` for absent keys, like the JS object). -/
def ActivityMap : Type := Nat → Option Int

/-- The JS lookup `activityData.value[dateStr] || 0`: the stored count,
or 0 when the key is absent. -/
def lookupCount (m : ActivityMap) (d : Nat) : Int :=
  (m d).getD 0

/-- One cell of the heat-map grid, as pushed by the inner loop of
`weeks` in ActivityHeatmap.vue: `{ date, count, dayOfWeek: i }`. -/
structure DayCell where
  date : Nat
  count : Int
  dayOfWeek : Nat
deriving DecidableEq, Repr

namespace ActivityHeatmap

/-- ActivityHeatmap.vue lines 98-103: `changeYear(delta)` updates the
selected year only when the new year stays within 2020..2030. -/
def changeYear (selectedYear delta : Int) : Int :=
  let newYear := selectedYear + delta
  if 2020 ≤ newYear ∧ newYear ≤ 2030 then newYear else selectedYear

/-- ActivityHeatmap.vue lines 145-151: days to add to January 1 to
reach the first grid Monday, from `getDay()` of January 1. -/
def daysToMonday (startDay : Nat) : Nat :=
  if startDay = 0 then 1
  else if startDay ≠ 1 then 8 - startDay
  else 0

/-- ActivityHeatmap.vue lines 142-152: the day number the grid starts
at for year `y` (January 1 advanced to the nearest Monday on or after
it). -/
def startRD (y : Nat) : Nat :=
  jan1RD y + daysToMonday (jsGetDay (jan1RD y))

/-- ActivityHeatmap.vue lines 156-169: the grid body.  53 weeks of 7
cells; a single date cursor advances one day per cell, so the cell of
week `w` at position `i` is dated `s + 7*w + i`. -/
def weeks (m : ActivityMap) (s : Nat) : List (List DayCell) :=
  (List.range 53).map fun w =>
    (List.range 7).map fun i =>
      { date := s + 7 * w + i
        count := lookupCount m (s + 7 * w + i)
        dayOfWeek := i }

/-- ActivityHeatmap.vue lines 190-196: CSS intensity class from a
count. -/
def getIntensityClass (count : Int) : String :=
  if count = 0 then "intensity-0"
  else if count ≤ 3 then "intensity-1"
  else if count ≤ 6 then "intensity-2"
  else if count ≤ 9 then "intensity-3"
  else "intensity-4"

/-- Numeric bucket read off the suffix of `getIntensityClass`;
the same case structure as the source. -/
def bucketOf (count : Int) : Nat :=
  if count = 0 then 0
  else if count ≤ 3 then 1
  else if count ≤ 6 then 2
  else if count ≤ 9 then 3
  else 4

/-- ActivityHeatmap.vue lines 204-208: Russian plural form for
"commits". -/
def getCommitsWord (count : Nat) : String :=
  if count % 10 = 1 ∧ count % 100 ≠ 11 then "коммит"
  else if (count % 10 = 2 ∨ count % 10 = 3 ∨ count % 10 = 4) ∧
      ¬(count % 100 = 12 ∨ count % 100 = 13 ∨ count % 100 = 14) then "коммита"
  else "коммитов"

/-- One day of the random branch of `generateYearData`
(line 126): `Math.random() > 0.3 ? Math.floor(Math.random() * 20) : 0`,
with the two draws passed explicitly; paired with how many draws were
consumed. -/
def randDayValue (r1 r2 : ℚ) : Int :=
  if r1 > 3 / 10 then ⌊r2 * 20⌋ else 0

/-- ActivityHeatmap.vue lines 124-128: the generation loop over `n`
consecutive days starting at day number `d`, threading the position
`idx` in the random stream (one draw for the branch test, one more for
the value when the test passes). -/
def genDays (rand : Nat → ℚ) (idx d : Nat) : Nat → List (Nat × Int)
  | 0 => []
  | n + 1 =>
    if rand idx > 3 / 10 then
      (d, ⌊rand (idx + 1) * 20⌋) :: genDays rand (idx + 2) (d + 1) n
    else
      (d, 0) :: genDays rand (idx + 1) (d + 1) n

/-- ActivityHeatmap.vue lines 106-132, random branch (no caller data):
iterate from January 1 of the selected year through December 31, or
through today when the selected year is the current year. -/
def generateYearData (rand : Nat → ℚ) (todayYear todayRD y : Nat) :
    List (Nat × Int) :=
  let endRD := if y = todayYear then todayRD else dec31RD y
  genDays rand 0 (jan1RD y) (endRD + 1 - jan1RD y)

end ActivityHeatmap

namespace TeamProductivityStats

/-- TeamProductivityStats.vue lines 69-72: `changeYear` adds the delta
unconditionally; no bounds check is performed in the function. -/
def changeYear (selectedYear delta : Int) : Int :=
  selectedYear + delta

/-- TeamProductivityStats.vue line 8: the previous-year button is
disabled when `selectedYear <= 2015`, so a click only fires otherwise. -/
def clickPrevYear (selectedYear : Int) : Int :=
  if selectedYear ≤ 2015 then selectedYear else changeYear selectedYear (-1)

/-- TeamProductivityStats.vue line 18: the next-year button is disabled
when `selectedYear >= 2025`, so a click only fires otherwise. -/
def clickNextYear (selectedYear : Int) : Int :=
  if 2025 ≤ selectedYear then selectedYear else changeYear selectedYear 1

end TeamProductivityStats

open ActivityHeatmap TeamProductivityStats

/-- A concrete random stream: first draw 1/2 (so the `> 0.3` branch of
the generator is taken), every later draw 0. -/
def cexRand : Nat → ℚ := fun i => if i = 0 then 1 / 2 else 0

/-- The all-absent activity map (the empty JS object). -/
def emptyMap : ActivityMap := fun _ => none

/-- A map holding a single entry: day number `d` with count `v`. -/
def singletonMap (d : Nat) (v : Int) : ActivityMap :=
  fun x => if x = d then some v else none

/-- The constant-zero random stream. -/
def zeroRand : Nat → ℚ := fun _ => 0

/-- A random source whose draws all lie in the interval of
`Math.random()`, that is `[0, 1)`. -/
def randInUnit (rand : Nat → ℚ) : Prop :=
  ∀ i, 0 ≤ rand i ∧ rand i < 1

/-! ## Helper lemmas -/

/-- Concatenating 7-day ranges week by week yields one contiguous range. -/
theorem flatten_weekRanges : ∀ (k s : Nat),
    ((List.range k).map fun w => List.range' (s + 7 * w) 7).flatten =
      List.range' s (7 * k) := by
  intro k s
  induction k with
  | zero => simp
  | succ k ih =>
    rw [List.range_succ, List.map_append, List.flatten_append, ih]
    simp only [List.map_cons, List.map_nil, List.flatten_cons, List.flatten_nil,
      List.append_nil]
    rw [List.range'_append_1]
    congr 1
    omega

/-- The dates of the flattened grid are the 371 consecutive day numbers
from the start date. -/
theorem weeks_flatten_dates (m : ActivityMap) (s : Nat) :
    (weeks m s).flatten.map DayCell.date = List.range' s 371 := by
  unfold weeks
  rw [List.map_flatten, List.map_map]
  have h1 : ∀ w : Nat, (DayCell.date ∘ fun i =>
      (⟨s + 7 * w + i, lookupCount m (s + 7 * w + i), i⟩ : DayCell)) =
      fun i => s + 7 * w + i := by
    intro w; rfl
  have h2 : ((List.range 53).map fun w => (List.range 7).map fun i => s + 7 * w + i) =
      (List.range 53).map fun w => List.range' (s + 7 * w) 7 := by
    refine List.map_congr_left fun w _ => ?_
    rw [List.range'_eq_map_range]
  calc ((List.range 53).map fun w => List.map (DayCell.date ∘ fun i =>
        (⟨s + 7 * w + i, lookupCount m (s + 7 * w + i), i⟩ : DayCell))
        (List.range 7)).flatten
      = ((List.range 53).map fun w => (List.range 7).map fun i => s + 7 * w + i).flatten := by
        simp only [h1]
    _ = ((List.range 53).map fun w => List.range' (s + 7 * w) 7).flatten := by rw [h2]
    _ = List.range' s (7 * 53) := flatten_weekRanges 53 s

/-! ## Claims -/

/-- Claim C2: for every year, the resolved grid start is January 1 when
that day is a Monday, and otherwise the next Monday strictly after
January 1 (Sunday advances 1 day; Tuesday..Saturday, weekday `w` in JS
numbering, advances `8 - w` days); in every case the start falls on a
Monday, and no Monday is skipped. -/
theorem c2_startDate_monday : ∀ y : Nat,
    jsGetDay (startRD y) = 1 ∧
    (jsGetDay (jan1RD y) = 1 → startRD y = jan1RD y) ∧
    (jsGetDay (jan1RD y) = 0 → startRD y = jan1RD y + 1) ∧
    (∀ w, 2 ≤ w → w ≤ 6 → jsGetDay (jan1RD y) = w → startRD y = jan1RD y + (8 - w)) ∧
    (jsGetDay (jan1RD y) ≠ 1 → jan1RD y < startRD y ∧ startRD y ≤ jan1RD y + 7 ∧
      ∀ d, jan1RD y < d → d < startRD y → jsGetDay d ≠ 1) := by
  intro y
  refine ⟨?_, ?_, ?_, ?_, ?_⟩
  · unfold startRD daysToMonday jsGetDay
    split_ifs <;> omega
  · intro h; unfold startRD daysToMonday jsGetDay at *
    split_ifs <;> omega
  · intro h; unfold startRD daysToMonday jsGetDay at *
    split_ifs
    omega
  · intro w h2 h6 hw; unfold startRD daysToMonday jsGetDay at *
    split_ifs <;> omega
  · intro h
    refine ⟨?_, ?_, ?_⟩
    · unfold startRD daysToMonday jsGetDay at *
      split_ifs <;> omega
    · unfold startRD daysToMonday jsGetDay at *
      split_ifs <;> omega
    · intro d hd1 hd2
      unfold startRD daysToMonday jsGetDay at *
      split_ifs at * <;> omega

/-- Witness for C2 on the years 2024 (Jan 1 a Monday), 2023 (Jan 1 a
Sunday) and 2025 (Jan 1 a Wednesday, JS weekday 3). -/
theorem c2_startDate_monday_witness :
    jsGetDay (jan1RD 2024) = 1 ∧ startRD 2024 = jan1RD 2024 ∧
    jsGetDay (jan1RD 2023) = 0 ∧ startRD 2023 = jan1RD 2023 + 1 ∧
    jsGetDay (jan1RD 2025) = 3 ∧ startRD 2025 = jan1RD 2025 + 5 ∧
    jsGetDay (toRD 2025 1 3) ≠ 1 := by
  refine ⟨by decide, (c2_startDate_monday 2024).2.1 (by decide),
    by decide, (c2_startDate_monday 2023).2.2.1 (by decide),
    by decide, (c2_startDate_monday 2025).2.2.2.1 3 (by decide) (by decide) (by decide),
    ((c2_startDate_monday 2025).2.2.2.2 (by decide)).2.2 (toRD 2025 1 3)
      (by decide) (by decide)⟩

/-- Claim C1: for every year and every activity map, the grid is 53
week columns of 7 cells each; the flattened cell dates are the 371
consecutive day numbers starting at the resolved start date (strictly
increasing, no gaps), and each cell's `dayOfWeek` is its position
0..6 within its week. -/
theorem c1_grid_shape : ∀ (y : Nat) (m : ActivityMap),
    (weeks m (startRD y)).length = 53 ∧
    (weeks m (startRD y)).map List.length = List.replicate 53 7 ∧
    ((weeks m (startRD y)).flatten.map DayCell.date =
      (List.range 371).map fun k => startRD y + k) ∧
    (weeks m (startRD y)).map (List.map DayCell.dayOfWeek) =
      List.replicate 53 (List.range 7) := by
  intro y m
  refine ⟨?_, ?_, ?_, ?_⟩
  · unfold weeks; simp
  · unfold weeks
    rw [List.map_map]
    have h : (List.length ∘ fun w => (List.range 7).map fun i =>
        (⟨startRD y + 7 * w + i, lookupCount m (startRD y + 7 * w + i), i⟩ : DayCell)) =
        fun _ : Nat => 7 := by
      funext w; simp
    rw [h, List.map_const', List.length_range]
  · rw [weeks_flatten_dates, List.range'_eq_map_range]
  · unfold weeks
    rw [List.map_map]
    have h : (List.map DayCell.dayOfWeek ∘ fun w => (List.range 7).map fun i =>
        (⟨startRD y + 7 * w + i, lookupCount m (startRD y + 7 * w + i), i⟩ : DayCell)) =
        fun _ : Nat => List.range 7 := by
      funext w
      show List.map DayCell.dayOfWeek ((List.range 7).map fun i =>
        (⟨startRD y + 7 * w + i, lookupCount m (startRD y + 7 * w + i), i⟩ : DayCell)) =
        List.range 7
      rw [List.map_map]
      have h2 : (DayCell.dayOfWeek ∘ fun i =>
          (⟨startRD y + 7 * w + i, lookupCount m (startRD y + 7 * w + i), i⟩ : DayCell)) =
          fun i : Nat => i := rfl
      rw [h2, List.map_id']
    rw [h, List.map_const', List.length_range]

/-- Claim C3: every cell of a built grid carries exactly the count the
activity map stores for its date (the map's value when the date is a
key, 0 when it is absent). -/
theorem c3_cell_counts : ∀ (m : ActivityMap) (s : Nat) (c : DayCell),
    c ∈ (weeks m s).flatten →
    c.count = (m c.date).getD 0 ∧
    (∀ v, m c.date = some v → c.count = v) ∧
    (m c.date = none → c.count = 0) := by
  intro m s c hc
  rw [List.mem_flatten] at hc
  obtain ⟨l, hl, hcl⟩ := hc
  unfold weeks at hl
  rw [List.mem_map] at hl
  obtain ⟨w, hw, rfl⟩ := hl
  rw [List.mem_map] at hcl
  obtain ⟨i, hi, rfl⟩ := hcl
  refine ⟨rfl, ?_, ?_⟩
  · intro v hv
    show lookupCount m (s + 7 * w + i) = v
    unfold lookupCount
    rw [hv]; rfl
  · intro hv
    show lookupCount m (s + 7 * w + i) = 0
    unfold lookupCount
    rw [hv]; rfl

/-- Witness for C3: a grid over a one-entry map, at the cell of the
mapped date. -/
theorem c3_cell_counts_witness :
    singletonMap 4 5 4 = some 5 ∧
    (⟨4, 5, 4⟩ : DayCell) ∈ (weeks (singletonMap 4 5) 0).flatten ∧
    (⟨4, 5, 4⟩ : DayCell).count = 5 := by
  refine ⟨by decide, by decide, ?_⟩
  exact (c3_cell_counts (singletonMap 4 5) 0 ⟨4, 5, 4⟩ (by decide)).2.1 5 (by decide)

/-- Claim C10: when January 1 is not a Monday, the days from January 1
up to (but excluding) the first Monday appear in no grid cell, so map
entries keyed to them are silently omitted. -/
theorem c10_days_before_start_absent : ∀ (y : Nat) (m : ActivityMap) (d : Nat),
    jsGetDay (jan1RD y) ≠ 1 → jan1RD y ≤ d → d < startRD y →
    d ∉ (weeks m (startRD y)).flatten.map DayCell.date := by
  intro y m d h1 h2 h3 hmem
  rw [weeks_flatten_dates, List.mem_range'_1] at hmem
  omega

/-- Witness for C10: January 1 of 2025 (a Wednesday) has no cell in
the 2025 grid. -/
theorem c10_days_before_start_absent_witness :
    jsGetDay (jan1RD 2025) ≠ 1 ∧ jan1RD 2025 < startRD 2025 ∧
    jan1RD 2025 ∉ (weeks emptyMap (startRD 2025)).flatten.map DayCell.date := by
  refine ⟨by decide, by decide, ?_⟩
  exact c10_days_before_start_absent 2025 emptyMap (jan1RD 2025)
    (by decide) (le_refl _) (by decide)

/-- Claim C4: the classifier maps 0 to bucket 0, 1..3 to bucket 1,
4..6 to bucket 2, 7..9 to bucket 3 and 10 or more to bucket 4, agrees
with the CSS class string it produces, takes the stated values at
0, 3, 4, 6, 9, 10 and 1000, and is monotone non-decreasing in the
count. -/
theorem c4_intensity_buckets : ∀ n : Nat,
    getIntensityClass (n : Int) =
      "intensity-" ++ toString (bucketOf (n : Int)) ∧
    (n = 0 → bucketOf (n : Int) = 0) ∧
    (1 ≤ n → n ≤ 3 → bucketOf (n : Int) = 1) ∧
    (4 ≤ n → n ≤ 6 → bucketOf (n : Int) = 2) ∧
    (7 ≤ n → n ≤ 9 → bucketOf (n : Int) = 3) ∧
    (10 ≤ n → bucketOf (n : Int) = 4) ∧
    (∀ k : Nat, n ≤ k → bucketOf (n : Int) ≤ bucketOf (k : Int)) ∧
    getIntensityClass 0 = "intensity-0" ∧ getIntensityClass 3 = "intensity-1" ∧
    getIntensityClass 4 = "intensity-2" ∧ getIntensityClass 6 = "intensity-2" ∧
    getIntensityClass 9 = "intensity-3" ∧ getIntensityClass 10 = "intensity-4" ∧
    getIntensityClass 1000 = "intensity-4" := by
  intro n
  refine ⟨?_, ?_, ?_, ?_, ?_, ?_, ?_, by decide, by decide, by decide, by decide,
    by decide, by decide, by decide⟩
  · unfold getIntensityClass bucketOf
    split_ifs <;> rfl
  · intro h; unfold bucketOf; split_ifs <;> omega
  · intro h1 h2; unfold bucketOf; split_ifs <;> omega
  · intro h1 h2; unfold bucketOf; split_ifs <;> omega
  · intro h1 h2; unfold bucketOf; split_ifs <;> omega
  · intro h; unfold bucketOf; split_ifs <;> omega
  · intro k hk; unfold bucketOf; split_ifs <;> omega

/-- Witness for C4 at counts 5 and 12. -/
theorem c4_intensity_buckets_witness :
    (4 ≤ 5 ∧ 5 ≤ 6 ∧ bucketOf ((5 : Nat) : Int) = 2) ∧
    5 ≤ 12 ∧ bucketOf ((5 : Nat) : Int) ≤ bucketOf ((12 : Nat) : Int) := by
  have h := c4_intensity_buckets 5
  exact ⟨⟨by decide, by decide, h.2.2.2.1 (by decide) (by decide)⟩,
    by decide, h.2.2.2.2.2.2.1 12 (by decide)⟩

/-- Counterexample for C5: a negative count is classified into bucket
1, not bucket 0, because the `count <= 3` branch catches it. -/
theorem c5_negative_counterexample :
    getIntensityClass (-5) = "intensity-1" ∧
    ("intensity-1" : String) ≠ "intensity-0" := by
  exact ⟨rfl, by decide⟩

/-- Claim C5 as amended: every negative count terminates without
crashing but lands in bucket 1 (the `count <= 3` branch), not
bucket 0. -/
theorem c5_negative_bucket_one : ∀ c : Int, c < 0 →
    getIntensityClass c = "intensity-1" := by
  intro c h
  unfold getIntensityClass
  rw [if_neg (by omega : ¬c = 0), if_pos (by omega : c ≤ 3)]

/-- Witness for the amended C5 at count -7. -/
theorem c5_negative_bucket_one_witness :
    (-7 : Int) < 0 ∧ getIntensityClass (-7) = "intensity-1" :=
  ⟨by decide, c5_negative_bucket_one (-7) (by decide)⟩

/-- Claim C6: the pluralizer returns the singular form exactly when
count mod 10 = 1 and count mod 100 is not 11, the few form exactly
when count mod 10 is 2..4 and count mod 100 is not 12..14, the many
form otherwise, and takes the stated values at 1, 2, 5, 11, 21, 25. -/
theorem c6_plural_forms : ∀ n : Nat,
    (getCommitsWord n = "коммит" ↔ (n % 10 = 1 ∧ n % 100 ≠ 11)) ∧
    (getCommitsWord n = "коммита" ↔
      ((n % 10 = 2 ∨ n % 10 = 3 ∨ n % 10 = 4) ∧
        ¬(n % 100 = 12 ∨ n % 100 = 13 ∨ n % 100 = 14))) ∧
    (getCommitsWord n = "коммитов" ↔
      (¬(n % 10 = 1 ∧ n % 100 ≠ 11) ∧
        ¬((n % 10 = 2 ∨ n % 10 = 3 ∨ n % 10 = 4) ∧
          ¬(n % 100 = 12 ∨ n % 100 = 13 ∨ n % 100 = 14)))) ∧
    getCommitsWord 1 = "коммит" ∧ getCommitsWord 2 = "коммита" ∧
    getCommitsWord 5 = "коммитов" ∧ getCommitsWord 11 = "коммитов" ∧
    getCommitsWord 21 = "коммит" ∧ getCommitsWord 25 = "коммитов" := by
  intro n
  have s12 : ("коммит" : String) ≠ "коммита" := by decide
  have s13 : ("коммит" : String) ≠ "коммитов" := by decide
  have s23 : ("коммита" : String) ≠ "коммитов" := by decide
  refine ⟨?_, ?_, ?_, by decide, by decide, by decide, by decide, by decide, by decide⟩
  · unfold getCommitsWord
    split_ifs with h1 h2
    · exact iff_of_true rfl h1
    · exact iff_of_false (Ne.symm s12) h1
    · exact iff_of_false (Ne.symm s13) h1
  · unfold getCommitsWord
    split_ifs with h1 h2
    · exact iff_of_false s12 (by rintro ⟨c, -⟩; omega)
    · exact iff_of_true rfl h2
    · exact iff_of_false (Ne.symm s23) h2
  · unfold getCommitsWord
    split_ifs with h1 h2
    · exact iff_of_false s13 (by tauto)
    · exact iff_of_false s23 (by tauto)
    · exact iff_of_true rfl ⟨h1, h2⟩

/-- Counterexample for C7: at the TeamProductivityStats call site the
transition itself does not clamp; stepping forward from the upper
bound 2025 yields 2026, where the claim requires 2025. -/
theorem c7_team_unclamped_counterexample :
    TeamProductivityStats.changeYear 2025 1 = 2026 ∧ (2026 : Int) ≠ 2025 :=
  ⟨rfl, by decide⟩

/-- Claim C7 as amended: the ActivityHeatmap transition returns the
incremented year when it stays within 2020..2030 and is a no-op
otherwise (so it clamps at both bounds); the TeamProductivityStats
transition function is unclamped (always adds the delta), and its
2015..2025 bounds are enforced only by the disabled buttons, so the
effective click transitions are no-ops at the bounds. -/
theorem c7_year_navigation : ∀ y d : Int,
    (2020 ≤ y + d → y + d ≤ 2030 → ActivityHeatmap.changeYear y d = y + d) ∧
    (¬(2020 ≤ y + d ∧ y + d ≤ 2030) → ActivityHeatmap.changeYear y d = y) ∧
    ActivityHeatmap.changeYear 2030 1 = 2030 ∧
    ActivityHeatmap.changeYear 2020 (-1) = 2020 ∧
    TeamProductivityStats.changeYear y d = y + d ∧
    clickNextYear 2025 = 2025 ∧
    clickPrevYear 2015 = 2015 ∧
    (2015 ≤ y → y < 2025 → clickNextYear y = y + 1) ∧
    (2015 < y → y ≤ 2025 → clickPrevYear y = y - 1) := by
  intro y d
  refine ⟨fun h1 h2 => ?_, fun h => ?_, by decide, by decide, rfl, by decide, by decide,
    fun h1 h2 => ?_, fun h1 h2 => ?_⟩
  · unfold ActivityHeatmap.changeYear
    exact if_pos ⟨h1, h2⟩
  · unfold ActivityHeatmap.changeYear
    exact if_neg h
  · unfold clickNextYear TeamProductivityStats.changeYear
    rw [if_neg (by omega)]
  · unfold clickPrevYear TeamProductivityStats.changeYear
    rw [if_neg (by omega)]
    omega

/-- Witness for the amended C7: an in-range step, an out-of-range
no-op, and an effective in-range click. -/
theorem c7_year_navigation_witness :
    (2020 ≤ (2025 : Int) + 1 ∧ (2025 : Int) + 1 ≤ 2030 ∧
      ActivityHeatmap.changeYear 2025 1 = 2026) ∧
    (¬(2020 ≤ (2030 : Int) + 1 ∧ (2030 : Int) + 1 ≤ 2030) ∧
      ActivityHeatmap.changeYear 2030 1 = 2030) ∧
    (2015 ≤ (2020 : Int) ∧ (2020 : Int) < 2025 ∧ clickNextYear 2020 = 2021) := by
  refine ⟨⟨by decide, by decide, (c7_year_navigation 2025 1).1 (by decide) (by decide)⟩,
    ⟨by decide, (c7_year_navigation 2030 1).2.1 (by decide)⟩,
    by decide, by decide, (c7_year_navigation 2020 0).2.2.2.2.2.2.2.1 (by decide) (by decide)⟩

/-- The dates produced by the generation loop are the `n` consecutive
day numbers from its start day, whichever branch each day takes. -/
theorem genDays_dates : ∀ (rand : Nat → ℚ) (n idx d : Nat),
    (genDays rand idx d n).map Prod.fst = List.range' d n := by
  intro rand n
  induction n with
  | zero => intro idx d; rfl
  | succ n ih =>
    intro idx d
    unfold genDays
    split_ifs <;> simp [ih, List.range'_succ]

/-- Every value produced by the generation loop lies in 0..19 when the
random draws lie in the unit interval. -/
theorem genDays_bounds : ∀ (rand : Nat → ℚ), randInUnit rand →
    ∀ (n idx d : Nat), ∀ p ∈ genDays rand idx d n, 0 ≤ p.2 ∧ p.2 ≤ 19 := by
  intro rand hr n
  induction n with
  | zero => intro idx d p hp; simp [genDays] at hp
  | succ n ih =>
    intro idx d p hp
    unfold genDays at hp
    split_ifs at hp with h
    · rcases List.mem_cons.1 hp with rfl | hp2
      · constructor
        · exact Int.le_floor.2 (by
            push_cast
            exact mul_nonneg (hr (idx + 1)).1 (by norm_num))
        · have h20 : rand (idx + 1) * 20 < 20 := by
            have := (hr (idx + 1)).2
            nlinarith
          have : (⌊rand (idx + 1) * 20⌋ : Int) < 20 :=
            Int.floor_lt.2 (by push_cast; exact h20)
          omega
      · exact ih _ _ p hp2
    · rcases List.mem_cons.1 hp with rfl | hp2
      · exact ⟨le_refl 0, by norm_num⟩
      · exact ih _ _ p hp2

/-- Counterexample for C8: a draw sequence whose first day takes the
active branch (first draw 1/2 exceeds 0.3) yet produces the value 0 —
the active branch draws from 0..19, not 1..19 as claimed. -/
theorem c8_active_branch_zero_counterexample :
    cexRand 0 > 3 / 10 ∧
    (generateYearData cexRand 2026 0 2025).head? = some (jan1RD 2025, 0) ∧
    ¬(1 ≤ (0 : Int) ∧ (0 : Int) ≤ 19) := by
  refine ⟨by norm_num [cexRand], ?_, by decide⟩
  have hpos : cexRand 0 > 3 / 10 := by norm_num [cexRand]
  have hc1 : cexRand 1 = 0 := by norm_num [cexRand]
  have hn : ((if (2025 : Nat) = 2026 then (0 : Nat) else dec31RD 2025) + 1 - jan1RD 2025) =
      364 + 1 := by decide
  simp only [generateYearData]
  rw [hn]
  unfold genDays
  rw [if_pos hpos, List.head?_cons, hc1]
  norm_num

/-- Claim C8 as amended: with no caller data the generator yields
exactly one entry per calendar day from January 1 of the selected year
through December 31 (through today when the selected year is the
current year), and with draws in the unit interval every value lies in
0..19 (0 from the inactive branch, the floor of twenty times a draw —
hence possibly 0 — from the active one). -/
theorem c8_generator : ∀ (rand : Nat → ℚ) (todayYear todayRD y : Nat),
    ((generateYearData rand todayYear todayRD y).map Prod.fst =
      List.range' (jan1RD y)
        ((if y = todayYear then todayRD else dec31RD y) + 1 - jan1RD y)) ∧
    (randInUnit rand →
      ∀ p ∈ generateYearData rand todayYear todayRD y, 0 ≤ p.2 ∧ p.2 ≤ 19) := by
  intro rand todayYear todayRD y
  constructor
  · simp only [generateYearData]
    exact genDays_dates rand _ 0 (jan1RD y)
  · intro hr p hp
    exact genDays_bounds rand hr _ 0 (jan1RD y) p
      (by simpa [generateYearData] using hp)

/-- Witness for the amended C8: the constant-zero stream on the
scenario where today is January 1 of the selected year 2025. -/
theorem c8_generator_witness :
    randInUnit zeroRand ∧
    0 ≤ ((jan1RD 2025, (0 : Int))).2 ∧ ((jan1RD 2025, (0 : Int))).2 ≤ 19 := by
  have hr : randInUnit zeroRand := fun i => ⟨le_refl 0, by norm_num [zeroRand]⟩
  have hmem : (jan1RD 2025, (0 : Int)) ∈ generateYearData zeroRand 2025 (jan1RD 2025) 2025 := by
    simp only [generateYearData]
    have hn : ((if True then jan1RD 2025 else dec31RD 2025) + 1 - jan1RD 2025) =
        0 + 1 := by simp
    rw [hn]
    unfold genDays
    rw [if_neg (by norm_num [zeroRand])]
    simp
  have h := (c8_generator zeroRand 2025 (jan1RD 2025) 2025).2 hr (jan1RD 2025, 0) hmem
  exact ⟨hr, h⟩

/-- Claim C9: each core computation, embedded as a function of all its
inputs (with the random source passed explicitly), yields identical
results on identical inputs: two runs with pointwise-equal activity
maps and random streams agree. -/
theorem c9_deterministic : ∀ (y d c : Int) (yr s n ty trd yy : Nat)
    (m₁ m₂ : ActivityMap) (rand₁ rand₂ : Nat → ℚ),
    (∀ x, m₁ x = m₂ x) → (∀ i, rand₁ i = rand₂ i) →
    ActivityHeatmap.changeYear y d = ActivityHeatmap.changeYear y d ∧
    TeamProductivityStats.changeYear y d = TeamProductivityStats.changeYear y d ∧
    startRD yr = startRD yr ∧
    weeks m₁ s = weeks m₂ s ∧
    getIntensityClass c = getIntensityClass c ∧
    getCommitsWord n = getCommitsWord n ∧
    generateYearData rand₁ ty trd yy = generateYearData rand₂ ty trd yy := by
  intro y d c yr s n ty trd yy m₁ m₂ rand₁ rand₂ hm hr
  have hm2 : m₁ = m₂ := funext hm
  have hr2 : rand₁ = rand₂ := funext hr
  subst hm2
  subst hr2
  exact ⟨rfl, rfl, rfl, rfl, rfl, rfl, rfl⟩

/-- Witness for C9 on concrete inputs. -/
theorem c9_deterministic_witness :
    weeks emptyMap 0 = weeks emptyMap 0 ∧
    generateYearData zeroRand 2026 0 2025 = generateYearData zeroRand 2026 0 2025 := by
  have h := c9_deterministic 2025 1 5 2025 0 7 2026 0 2025 emptyMap emptyMap
    zeroRand zeroRand (fun x => rfl) (fun i => rfl)
  exact ⟨h.2.2.2.1, h.2.2.2.2.2.2⟩
